import Mathlib

/-!
Verification of `jax/experimental/pax.py`: saving and loading pytrees
(recursive collections of tuples, lists, dicts, namedtuples and numpy
arrays) to and from an hdf5 file.

The embedding models:
  * numpy arrays as `NpArray` (dtype string, shape, and a flat payload of
    opaque integers: the code copies array contents verbatim and never
    computes on element values, so the payload representation is opaque);
  * pytrees as the inductive `Pytree`, with one constructor per branch of
    the `isinstance` dispatch in `_savetree`, plus `other` for any node of
    an unrecognized type (e.g. a raw string).  `dictNode` carries the
    runtime class name (`type(tree).__name__`), since `isinstance(tree,
    dict)` also accepts dict subclasses whose class name differs from
    `"dict"`;
  * hdf5 files as trees of named nodes: `H5Node.dataset` (with attributes
    and array payload) and `H5Node.group` (with attributes and named
    children, kept in creation order);
  * h5py's default child-iteration order (`track_order=False`): groups are
    iterated in ascending lexicographic name order, not creation order.
    `sortTree` applies this iteration-order view to every group of a file
    before reconstruction, which is equivalent to sorting at each visit
    since `_loadtree` never modifies the file;
  * exceptions as `Except String`: `ValueError` from `_savetree`,
    `KeyError` from `attrs['type']` and `f['pytree']` lookups.
-/

/-- A numpy array: element dtype, shape, and a flat payload of opaque
integers standing for the raw element data, which `save`/`load` copy
verbatim (`group.create_dataset(name, data=tree)` / `np.array(leaf)`). -/
structure NpArray where
  dtype : String
  shape : List Nat
  data  : List Int
deriving DecidableEq, Repr, BEq

/-- A pytree, mirroring the node kinds `_savetree` dispatches on:
numpy array leaves, namedtuples (tuple with `_fields`), tuples, lists,
dicts (including dict subclasses, whose runtime class name is recorded),
and `other` for any unrecognized node type (its type name recorded). -/
inductive Pytree where
  | arr (a : NpArray)
  | namedtuple (typeName : String) (fields : List (String × Pytree))
  | listNode (elems : List Pytree)
  | tupleNode (elems : List Pytree)
  | dictNode (className : String) (entries : List (String × Pytree))
  | other (typeName : String)

/-- An hdf5 node: a dataset (attributes, array payload) or a group
(attributes, named children in creation order). -/
inductive H5Node where
  | dataset (attrs : List (String × String)) (data : NpArray)
  | group (attrs : List (String × String)) (children : List (String × H5Node))

/-- The contents of an hdf5 file: the named children of the file's root. -/
def H5File := List (String × H5Node)

/-- Byte comparison of characters (names written by the code are ASCII,
where codepoint order is byte order). -/
def charLt (a b : Char) : Bool := a.val < b.val

/-- Lexicographic comparison of character lists. -/
def charListLt : List Char → List Char → Bool
  | [], [] => false
  | [], _ :: _ => true
  | _ :: _, [] => false
  | a :: as, b :: bs => charLt a b || (a == b && charListLt as bs)

/-- Lexicographic comparison of link names, the order in which HDF5
(`H5_INDEX_NAME`, h5py's default with `track_order=False`) iterates the
children of a group. -/
def nameLt (s t : String) : Bool := charListLt s.data t.data

/-- Insert a named child into a name-sorted list of children. -/
def insertChild (p : String × H5Node) : List (String × H5Node) → List (String × H5Node)
  | [] => [p]
  | q :: rest => if nameLt p.1 q.1 then p :: q :: rest else q :: insertChild p rest

/-- Sort a group's children into ascending name order: the order in which
`leaf.keys()` and `leaf.values()` iterate them in h5py. -/
def h5Iter : List (String × H5Node) → List (String × H5Node)
  | [] => []
  | p :: rest => insertChild p (h5Iter rest)

mutual

/-- View an hdf5 node through h5py's default iteration order: every
group's children appear in ascending lexicographic name order.  Applied
once to the whole file before reconstruction; equivalent to sorting at
each visit since loading never modifies the file. -/
def sortTree : H5Node → H5Node
  | .dataset attrs a => .dataset attrs a
  | .group attrs children => .group attrs (h5Iter (sortChildren children))

/-- `sortTree` applied to each child of a group. -/
def sortChildren : List (String × H5Node) → List (String × H5Node)
  | [] => []
  | (k, n) :: rest => (k, sortTree n) :: sortChildren rest

end

mutual

/-- `_savetree(tree, group, name)`: recursively save a pytree, returning
the named node added to the enclosing group.  An array becomes a dataset
(no attributes are ever set on it); any other recognized node becomes a
group whose `type` attribute is `type(tree).__name__`, with children
named by field name (namedtuple), by `arr{index}` (tuple/list), or by key
(dict).  Any other node raises `ValueError(f'Unrecognized type ...')`.
(In the Python code the group and its `type` attribute are created before
the unsupported-type check fires; the `Except` model only records that
the call fails.) -/
def _savetree : Pytree → String → Except String (String × H5Node)
  | .arr a, name => .ok (name, .dataset [] a)
  | .namedtuple n fields, name =>
    match saveFields fields with
    | .error e => .error e
    | .ok cs => .ok (name, .group [("type", n)] cs)
  | .tupleNode es, name =>
    match saveSeq es 0 with
    | .error e => .error e
    | .ok cs => .ok (name, .group [("type", "tuple")] cs)
  | .listNode es, name =>
    match saveSeq es 0 with
    | .error e => .error e
    | .ok cs => .ok (name, .group [("type", "list")] cs)
  | .dictNode c entries, name =>
    match saveFields entries with
    | .error e => .error e
    | .ok cs => .ok (name, .group [("type", c)] cs)
  | .other n, _ => .error ("Unrecognized type " ++ n)

/-- The loop `for k, subtree in tree._asdict().items()` (and the identical
dict loop): save each child under its field name / key, in order. -/
def saveFields : List (String × Pytree) → Except String (List (String × H5Node))
  | [] => .ok []
  | (k, t) :: rest =>
    match _savetree t k with
    | .error e => .error e
    | .ok c =>
      match saveFields rest with
      | .error e => .error e
      | .ok cs => .ok (c :: cs)

/-- The loop `for k, subtree in enumerate(tree)`: save the `k`-th element
under the name `arr{k}`. -/
def saveSeq : List Pytree → Nat → Except String (List (String × H5Node))
  | [], _ => .ok []
  | t :: rest, i =>
    match _savetree t ("arr" ++ toString i) with
    | .error e => .error e
    | .ok c =>
      match saveSeq rest (i + 1) with
      | .error e => .error e
      | .ok cs => .ok (c :: cs)

end

/-- `save(filepath, tree)`: create a fresh file and save `tree` under the
root name `'pytree'`.  (`jax.device_get` only materializes device arrays
to host numpy arrays; on the `NpArray` model it is the identity.)  The
result is the contents of the created file. -/
def save (tree : Pytree) : Except String H5File :=
  match _savetree tree "pytree" with
  | .error e => .error e
  | .ok c => .ok [c]

/-- The first character of an ASCII Python identifier: a letter or an
underscore.  (Python 3 identifiers may also use non-ASCII letters; the
names arising from this code are ASCII, and the model covers the ASCII
rules.) -/
def isIdentStart (c : Char) : Bool := c.isAlpha || c == '_'

/-- A continuation character of an ASCII Python identifier: a letter, a
digit or an underscore. -/
def isIdentCont (c : Char) : Bool := c.isAlphanum || c == '_'

/-- `str.isidentifier()` on ASCII strings: nonempty, a letter or
underscore followed by letters, digits and underscores. -/
def isIdentifier (s : String) : Bool :=
  match s.data with
  | [] => false
  | c :: cs => isIdentStart c && cs.all isIdentCont

/-- The Python keywords (`keyword.kwlist`), which `collections.namedtuple`
rejects as type or field names. -/
def pyKeywords : List String :=
  ["False", "None", "True", "and", "as", "assert", "async", "await",
   "break", "class", "continue", "def", "del", "elif", "else", "except",
   "finally", "for", "from", "global", "if", "in",
   "is", "import", "lambda", "nonlocal", "not", "or", "pass", "raise",
   "return", "try", "while", "with", "yield"]

/-- Whether a string is a Python keyword (`keyword.iskeyword`). -/
def isKeyword (s : String) : Bool := pyKeywords.contains s

/-- A string `collections.namedtuple` accepts as a type or field name: a
valid identifier that is not a keyword. -/
def namedtupleNameOk (s : String) : Bool := isIdentifier s && !isKeyword s

/-- Whether a string starts with an underscore (rejected for namedtuple
field names, `rename` being left at its default `False`). -/
def startsWithUnderscore (s : String) : Bool :=
  match s.data with
  | [] => false
  | c :: _ => c == '_'

/-- Whether a list of field names contains a duplicate (rejected by
`collections.namedtuple`). -/
def hasDuplicate : List String → Bool
  | [] => false
  | k :: rest => rest.contains k || hasDuplicate rest

/-- The validation `collections.namedtuple(typename, field_names)`
performs before defining the class: the type name and every field name
must be a valid non-keyword identifier, no field name may start with an
underscore, and field names may not repeat; any violation raises
`ValueError`. -/
def namedtupleCtorOk (typeName : String) (fields : List String) : Bool :=
  namedtupleNameOk typeName &&
  fields.all (fun f => namedtupleNameOk f && !startsWithUnderscore f) &&
  !hasDuplicate fields

mutual

/-- `_loadtree(leaf)`: a dataset yields its array back (its attributes are
never consulted); a group reads its `type` attribute (a missing attribute
is the low-level `KeyError`), loads all children in iteration order, and
dispatches on the tag: `'dict'` rebuilds a dict keyed by child names,
`'list'`/`'tuple'` rebuild from the child values in iteration order, and
any other tag rebuilds a namedtuple whose type name is the tag and whose
fields are the child names in iteration order, after the
`collections.namedtuple` factory has validated those names
(`namedtupleCtorOk`).  In the Python code `values` is a lazy `map`, so
the factory validates the names before the child values are forced; the
model loads children first, which changes only which error surfaces on a
doubly-invalid input, not whether one does. -/
def _loadtree : H5Node → Except String Pytree
  | .dataset _ a => .ok (.arr a)
  | .group attrs children =>
    match List.lookup "type" attrs with
    | none => .error "KeyError: type"
    | some leafType =>
      match loadValues children with
      | .error e => .error e
      | .ok values =>
        if leafType = "dict" then
          .ok (.dictNode "dict" (List.zip (children.map Prod.fst) values))
        else if leafType = "list" then
          .ok (.listNode values)
        else if leafType = "tuple" then
          .ok (.tupleNode values)
        else
          if namedtupleCtorOk leafType (children.map Prod.fst) then
            .ok (.namedtuple leafType (List.zip (children.map Prod.fst) values))
          else
            .error ("ValueError: invalid namedtuple names for " ++ leafType)

/-- `map(_loadtree, leaf.values())`, fully forced by the surrounding
`dict`/`list`/`tuple`/namedtuple constructor: load every child value. -/
def loadValues : List (String × H5Node) → Except String (List Pytree)
  | [] => .ok []
  | (_, n) :: rest =>
    match _loadtree n with
    | .error e => .error e
    | .ok v =>
      match loadValues rest with
      | .error e => .error e
      | .ok vs => .ok (v :: vs)

end

/-- `load(filepath)` applied to the contents of an already-opened file:
look up the root node `f['pytree']` (a missing root is the low-level
`KeyError`) and reconstruct it, viewing every group's children in h5py's
iteration order. -/
def loadFile (file : H5File) : Except String Pytree :=
  match List.lookup "pytree" file with
  | none => .error "KeyError: pytree"
  | some n => _loadtree (sortTree n)

/-- `load(save(tree))` on a fresh path: the value `load` returns after
`save` succeeds, or the error either call raises. -/
def roundtrip (t : Pytree) : Except String Pytree :=
  match save t with
  | .error e => .error e
  | .ok f => loadFile f

/-- A file system: a map from paths to the contents of the hdf5 file
stored there, if any. -/
def FS := String → Option H5File

/-- `save(filepath, tree)` acting on a file system: `h5py.File(filepath,
'w')` creates (or replaces) the file at `filepath`, and the tree is
written into it; on an unsupported-type error the call raises (the
partially written file is not modeled, only that the call fails). -/
def savePath (fs : FS) (p : String) (t : Pytree) : Except String Unit × FS :=
  match save t with
  | .error e => (.error e, fs)
  | .ok f => (.ok (), fun q => if q = p then some f else fs q)

/-- `load(filepath)` acting on a file system: `h5py.File(filepath, 'r')`
opens the file read-only (a missing file is `FileNotFoundError`), the
tree is reconstructed from its contents, and the file system is left as
it was: the `'r'` mode performs no write. -/
def loadPath (fs : FS) (p : String) : Except String Pytree × FS :=
  (match fs p with
   | none => .error ("FileNotFoundError: " ++ p)
   | some file => loadFile file,
   fs)

/-- Whether an `Except` computation succeeded. -/
def exceptIsOk : Except String α → Bool
  | .ok _ => true
  | .error _ => false

mutual

/-- Whether a pytree contains, at any position, a node that is neither a
numpy array leaf nor one of the four recognized container shapes. -/
def containsUnsupported : Pytree → Bool
  | .arr _ => false
  | .namedtuple _ fields => anyUnsupportedFields fields
  | .listNode es => anyUnsupportedSeq es
  | .tupleNode es => anyUnsupportedSeq es
  | .dictNode _ entries => anyUnsupportedFields entries
  | .other _ => true

/-- `containsUnsupported` over named children. -/
def anyUnsupportedFields : List (String × Pytree) → Bool
  | [] => false
  | (_, t) :: rest => containsUnsupported t || anyUnsupportedFields rest

/-- `containsUnsupported` over sequence elements. -/
def anyUnsupportedSeq : List Pytree → Bool
  | [] => false
  | t :: rest => containsUnsupported t || anyUnsupportedSeq rest

end

mutual

/-- Every group node in this subtree carries a `type` attribute. -/
def allGroupsHaveType : H5Node → Bool
  | .dataset _ _ => true
  | .group attrs children =>
    (List.lookup "type" attrs).isSome && allChildrenHaveType children

/-- `allGroupsHaveType` over named children. -/
def allChildrenHaveType : List (String × H5Node) → Bool
  | [] => true
  | (_, n) :: rest => allGroupsHaveType n && allChildrenHaveType rest

end

mutual

/-- The type-attribute discipline of saved files: every dataset node
carries no attributes at all (in particular no `type`), and every group
node carries exactly one attribute, named `type`. -/
def typeAttrInv : H5Node → Bool
  | .dataset attrs _ => attrs.isEmpty
  | .group attrs children =>
    (match attrs with
     | [("type", _)] => true
     | _ => false) && typeAttrInvChildren children

/-- `typeAttrInv` over named children. -/
def typeAttrInvChildren : List (String × H5Node) → Bool
  | [] => true
  | (_, n) :: rest => typeAttrInv n && typeAttrInvChildren rest

end

/-- Whether an hdf5 node is a group node. -/
def isGroupNode : H5Node → Bool
  | .dataset _ _ => false
  | .group _ _ => true

/-- Whether a pytree is a bare numpy array leaf. -/
def isArrLeaf : Pytree → Bool
  | .arr _ => true
  | _ => false

/-- Every key of the first entry list appears among the keys of the
second. -/
def keysIncluded (us es : List (String × Pytree)) : Bool :=
  us.all (fun p => (List.lookup p.1 es).isSome)

mutual

/-- The specification's notion of pytree equality: arrays are equal
element-wise with identical shape and dtype; lists and tuples have the
same elements in the same order; labeled tuples have the same type name
and the same field names and values in the same field order; dicts have
the same keys with equal values (insertion order and concrete dict class
irrelevant, as for Python `==`); shapes of different kinds are unequal. -/
def treeEq : Pytree → Pytree → Bool
  | .arr a, .arr b => a == b
  | .namedtuple n fs, .namedtuple m gs => n == m && fieldsEq fs gs
  | .listNode es, .listNode us => elemsEq es us
  | .tupleNode es, .tupleNode us => elemsEq es us
  | .dictNode _ es, .dictNode _ us => dictLe es us && keysIncluded us es
  | .other n, .other m => n == m
  | _, _ => false
termination_by structural t _ => t

/-- Pointwise equality of named fields, names and order included. -/
def fieldsEq : List (String × Pytree) → List (String × Pytree) → Bool
  | [], [] => true
  | (k, t) :: ts, (l, u) :: us => k == l && treeEq t u && fieldsEq ts us
  | _, _ => false
termination_by structural ts _ => ts

/-- Pointwise equality of sequence elements, order included. -/
def elemsEq : List Pytree → List Pytree → Bool
  | [], [] => true
  | t :: ts, u :: us => treeEq t u && elemsEq ts us
  | _, _ => false
termination_by structural ts _ => ts

/-- Every key of the first dict appears in the second with an equal value. -/
def dictLe : List (String × Pytree) → List (String × Pytree) → Bool
  | [], _ => true
  | (k, t) :: ts, us =>
    (match List.lookup k us with
     | some u => treeEq t u
     | none => false) && dictLe ts us
termination_by structural ts _ => ts

end

/-- An `int64` scalar numpy array holding `k`, used for the list
round-trip counterexample. -/
def c1Arr (k : Int) : Pytree := .arr ⟨"int64", [], [k]⟩

/-- The list `[np.array(0), ..., np.array(10)]` of eleven distinct array
leaves. -/
def c1List : Pytree :=
  .listNode [c1Arr 0, c1Arr 1, c1Arr 2, c1Arr 3, c1Arr 4, c1Arr 5,
             c1Arr 6, c1Arr 7, c1Arr 8, c1Arr 9, c1Arr 10]

/-- What `load` actually returns for the saved `c1List`: the children
`arr0, arr1, arr10, arr2, ..., arr9` in lexicographic name order, so the
element saved at index 10 comes back at position 2. -/
def c1Loaded : Pytree :=
  .listNode [c1Arr 0, c1Arr 1, c1Arr 10, c1Arr 2, c1Arr 3, c1Arr 4,
             c1Arr 5, c1Arr 6, c1Arr 7, c1Arr 8, c1Arr 9]

/-- A `float32` one-element numpy array holding `100 + k`, used for the
tuple ordering counterexample. -/
def c2Arr (k : Int) : Pytree := .arr ⟨"float32", [1], [100 + k]⟩

/-- The tuple `(a0, ..., a10)` of eleven distinct array leaves. -/
def c2Tuple : Pytree :=
  .tupleNode [c2Arr 0, c2Arr 1, c2Arr 2, c2Arr 3, c2Arr 4, c2Arr 5,
              c2Arr 6, c2Arr 7, c2Arr 8, c2Arr 9, c2Arr 10]

/-- The children `save` writes for `c2Tuple`: named `arr0, ..., arr10`
in element order. -/
def c2Saved : List (String × H5Node) :=
  [("arr0", .dataset [] ⟨"float32", [1], [100]⟩),
   ("arr1", .dataset [] ⟨"float32", [1], [101]⟩),
   ("arr2", .dataset [] ⟨"float32", [1], [102]⟩),
   ("arr3", .dataset [] ⟨"float32", [1], [103]⟩),
   ("arr4", .dataset [] ⟨"float32", [1], [104]⟩),
   ("arr5", .dataset [] ⟨"float32", [1], [105]⟩),
   ("arr6", .dataset [] ⟨"float32", [1], [106]⟩),
   ("arr7", .dataset [] ⟨"float32", [1], [107]⟩),
   ("arr8", .dataset [] ⟨"float32", [1], [108]⟩),
   ("arr9", .dataset [] ⟨"float32", [1], [109]⟩),
   ("arr10", .dataset [] ⟨"float32", [1], [110]⟩)]

/-- What `load` actually returns for the saved `c2Tuple`: elements in
lexicographic child-name order (`arr10` sorts before `arr2`), not in
ascending numeric-suffix order. -/
def c2Loaded : Pytree :=
  .tupleNode [c2Arr 0, c2Arr 1, c2Arr 10, c2Arr 2, c2Arr 3, c2Arr 4,
              c2Arr 5, c2Arr 6, c2Arr 7, c2Arr 8, c2Arr 9]

/-- A bare `float64` array leaf of shape `[3]`, saved as the whole tree. -/
def c4Arr : NpArray := ⟨"float64", [3], [1, 2, 3]⟩

/-- The field value `1.0` of the labeled-tuple fidelity example: a scalar
`float64` array (payloads are opaque to the code, which copies them
verbatim; `1` stands for the bit pattern of `1.0`). -/
def c6x : NpArray := ⟨"float64", [], [1]⟩

/-- The field value `2.0` of the labeled-tuple fidelity example. -/
def c6y : NpArray := ⟨"float64", [], [2]⟩

/-- The namedtuple `Point(x=1.0, y=2.0)`. -/
def c6Point : Pytree := .namedtuple "Point" [("x", .arr c6x), ("y", .arr c6y)]

mutual

/-- `_savetree` succeeds on exactly the trees with no unsupported node. -/
theorem savetree_ok_eq : (t : Pytree) → (name : String) →
    exceptIsOk (_savetree t name) = !containsUnsupported t
  | .arr a, name => by
    simp [_savetree, containsUnsupported, exceptIsOk]
  | .namedtuple n fs, name => by
    have h := saveFields_ok_eq fs
    cases hsf : saveFields fs <;>
      simp_all [_savetree, containsUnsupported, exceptIsOk]
  | .tupleNode es, name => by
    have h := saveSeq_ok_eq es 0
    cases hsf : saveSeq es 0 <;>
      simp_all [_savetree, containsUnsupported, exceptIsOk]
  | .listNode es, name => by
    have h := saveSeq_ok_eq es 0
    cases hsf : saveSeq es 0 <;>
      simp_all [_savetree, containsUnsupported, exceptIsOk]
  | .dictNode c entries, name => by
    have h := saveFields_ok_eq entries
    cases hsf : saveFields entries <;>
      simp_all [_savetree, containsUnsupported, exceptIsOk]
  | .other n, name => by
    simp [_savetree, containsUnsupported, exceptIsOk]
termination_by structural t _ => t

/-- `saveFields` succeeds on exactly the child lists with no unsupported
node. -/
theorem saveFields_ok_eq : (fs : List (String × Pytree)) →
    exceptIsOk (saveFields fs) = !anyUnsupportedFields fs
  | [] => by
    simp [saveFields, anyUnsupportedFields, exceptIsOk]
  | (k, t) :: rest => by
    have h1 := savetree_ok_eq t k
    have h2 := saveFields_ok_eq rest
    cases hs : _savetree t k <;> cases hr : saveFields rest <;>
      simp_all [saveFields, anyUnsupportedFields, exceptIsOk]
termination_by structural fs => fs

/-- `saveSeq` succeeds on exactly the element lists with no unsupported
node, for every starting index. -/
theorem saveSeq_ok_eq : (es : List Pytree) → (i : Nat) →
    exceptIsOk (saveSeq es i) = !anyUnsupportedSeq es
  | [], _ => by
    simp [saveSeq, anyUnsupportedSeq, exceptIsOk]
  | t :: rest, i => by
    have h1 := savetree_ok_eq t ("arr" ++ toString i)
    have h2 := saveSeq_ok_eq rest (i + 1)
    cases hs : _savetree t ("arr" ++ toString i) <;> cases hr : saveSeq rest (i + 1) <;>
      simp_all [saveSeq, anyUnsupportedSeq, exceptIsOk]
termination_by structural es _ => es

end

mutual

/-- Every node `_savetree` writes obeys the type-attribute discipline:
datasets carry no attributes, groups carry exactly the one `type`
attribute. -/
theorem savetree_inv : (t : Pytree) → ∀ (name k : String) (node : H5Node),
    _savetree t name = .ok (k, node) → typeAttrInv node = true
  | .arr a => by
    intro name k node h
    simp [_savetree] at h
    obtain ⟨h1, h2⟩ := h
    subst h2
    simp [typeAttrInv, List.isEmpty]
  | .namedtuple n fs => by
    intro name k node h
    have ih := saveFields_inv fs
    cases hsf : saveFields fs with
    | error e => simp [_savetree, hsf] at h
    | ok cs =>
      simp [_savetree, hsf] at h
      obtain ⟨h1, h2⟩ := h
      subst h2
      simp [typeAttrInv, ih cs hsf]
  | .tupleNode es => by
    intro name k node h
    have ih := saveSeq_inv es
    cases hsf : saveSeq es 0 with
    | error e => simp [_savetree, hsf] at h
    | ok cs =>
      simp [_savetree, hsf] at h
      obtain ⟨h1, h2⟩ := h
      subst h2
      simp [typeAttrInv, ih 0 cs hsf]
  | .listNode es => by
    intro name k node h
    have ih := saveSeq_inv es
    cases hsf : saveSeq es 0 with
    | error e => simp [_savetree, hsf] at h
    | ok cs =>
      simp [_savetree, hsf] at h
      obtain ⟨h1, h2⟩ := h
      subst h2
      simp [typeAttrInv, ih 0 cs hsf]
  | .dictNode c entries => by
    intro name k node h
    have ih := saveFields_inv entries
    cases hsf : saveFields entries with
    | error e => simp [_savetree, hsf] at h
    | ok cs =>
      simp [_savetree, hsf] at h
      obtain ⟨h1, h2⟩ := h
      subst h2
      simp [typeAttrInv, ih cs hsf]
  | .other n => by
    intro name k node h
    simp [_savetree] at h
termination_by structural t => t

/-- Every child list `saveFields` writes obeys the type-attribute
discipline. -/
theorem saveFields_inv : (fs : List (String × Pytree)) →
    ∀ (cs : List (String × H5Node)),
    saveFields fs = .ok cs → typeAttrInvChildren cs = true
  | [] => by
    intro cs h
    simp [saveFields] at h
    subst h
    simp [typeAttrInvChildren]
  | (k, t) :: rest => by
    intro cs h
    have ih1 := savetree_inv t
    have ih2 := saveFields_inv rest
    cases hs : _savetree t k with
    | error e => simp [saveFields, hs] at h
    | ok c =>
      cases hr : saveFields rest with
      | error e => simp [saveFields, hs, hr] at h
      | ok cs' =>
        simp [saveFields, hs, hr] at h
        subst h
        obtain ⟨ck, cn⟩ := c
        simp [typeAttrInvChildren, ih1 k ck cn hs, ih2 cs' hr]
termination_by structural fs => fs

/-- Every child list `saveSeq` writes obeys the type-attribute
discipline. -/
theorem saveSeq_inv : (es : List Pytree) → ∀ (i : Nat) (cs : List (String × H5Node)),
    saveSeq es i = .ok cs → typeAttrInvChildren cs = true
  | [] => by
    intro i cs h
    simp [saveSeq] at h
    subst h
    simp [typeAttrInvChildren]
  | t :: rest => by
    intro i cs h
    have ih1 := savetree_inv t
    have ih2 := saveSeq_inv rest
    cases hs : _savetree t ("arr" ++ toString i) with
    | error e => simp [saveSeq, hs] at h
    | ok c =>
      cases hr : saveSeq rest (i + 1) with
      | error e => simp [saveSeq, hs, hr] at h
      | ok cs' =>
        simp [saveSeq, hs, hr] at h
        subst h
        obtain ⟨ck, cn⟩ := c
        simp [typeAttrInvChildren, ih1 ("arr" ++ toString i) ck cn hs, ih2 (i + 1) cs' hr]
termination_by structural es => es

end

mutual

/-- `_loadtree` only succeeds on nodes all of whose groups carry a `type`
attribute. -/
theorem loadtree_groups_typed : (m : H5Node) → ∀ (t : Pytree),
    _loadtree m = .ok t → allGroupsHaveType m = true
  | .dataset attrs a => by
    intro t h
    simp [allGroupsHaveType]
  | .group attrs children => by
    intro t h
    have ih := loadValues_groups_typed children
    cases hl : List.lookup "type" attrs with
    | none => simp [_loadtree, hl] at h
    | some tag =>
      cases hv : loadValues children with
      | error e => simp [_loadtree, hl, hv] at h
      | ok vs => simp [allGroupsHaveType, hl, ih vs hv]
termination_by structural m => m

/-- `loadValues` only succeeds on child lists all of whose groups carry a
`type` attribute. -/
theorem loadValues_groups_typed : (l : List (String × H5Node)) →
    ∀ (vs : List Pytree),
    loadValues l = .ok vs → allChildrenHaveType l = true
  | [] => by
    intro vs h
    simp [allChildrenHaveType]
  | (k, n) :: rest => by
    intro vs h
    have ih1 := loadtree_groups_typed n
    have ih2 := loadValues_groups_typed rest
    cases hn : _loadtree n with
    | error e => simp [loadValues, hn] at h
    | ok v =>
      cases hr : loadValues rest with
      | error e => simp [loadValues, hn, hr] at h
      | ok vs' => simp [allChildrenHaveType, ih1 v hn, ih2 vs' hr]
termination_by structural l => l

end

/-- Inserting a child into a list leaves `allChildrenHaveType` counting
both the inserted child and the rest. -/
theorem allChildren_insertChild (k : String) (n : H5Node)
    (l : List (String × H5Node)) :
    allChildrenHaveType (insertChild (k, n) l)
      = (allGroupsHaveType n && allChildrenHaveType l) := by
  induction l with
  | nil => simp [insertChild, allChildrenHaveType]
  | cons q rest ih =>
    obtain ⟨qk, qn⟩ := q
    cases h : nameLt k qk with
    | true => simp [insertChild, h, allChildrenHaveType]
    | false =>
      simp [insertChild, h, allChildrenHaveType, ih]
      cases allGroupsHaveType n <;> cases allGroupsHaveType qn <;> simp

/-- Reordering children into iteration order preserves
`allChildrenHaveType`. -/
theorem allChildren_h5Iter (l : List (String × H5Node)) :
    allChildrenHaveType (h5Iter l) = allChildrenHaveType l := by
  induction l with
  | nil => rfl
  | cons p rest ih =>
    obtain ⟨k, n⟩ := p
    simp [h5Iter, allChildren_insertChild, ih, allChildrenHaveType]

mutual

/-- Viewing a node in iteration order preserves `allGroupsHaveType`. -/
theorem sortTree_groups : (m : H5Node) →
    allGroupsHaveType (sortTree m) = allGroupsHaveType m
  | .dataset attrs a => rfl
  | .group attrs children => by
    have ih := sortChildren_groups children
    simp [sortTree, allGroupsHaveType, allChildren_h5Iter, ih]
termination_by structural m => m

/-- Viewing each child in iteration order preserves
`allChildrenHaveType`. -/
theorem sortChildren_groups : (l : List (String × H5Node)) →
    allChildrenHaveType (sortChildren l) = allChildrenHaveType l
  | [] => rfl
  | (k, n) :: rest => by
    have ih1 := sortTree_groups n
    have ih2 := sortChildren_groups rest
    simp [sortChildren, allChildrenHaveType, ih1, ih2]
termination_by structural l => l

end

/-- Claim C1: evaluating `load` after `save` at the 11-element list
`[np.array(0), ..., np.array(10)]` shows the round trip does not return
an equal tree: the children are read back in lexicographic name order
(`arr10` before `arr2`), so the element saved at index 10 comes back at
position 2, refuting round-trip identity for all pytrees. -/
theorem c1_roundtrip_fails_on_eleven_element_list :
    roundtrip c1List = .ok c1Loaded ∧ treeEq c1Loaded c1List = false :=
  ⟨rfl, rfl⟩

/-- Claim C2: `save` does name the children of an 11-element tuple
`arr0, ..., arr10` in element order, but `load` reconstructs the elements
in the file's lexicographic child-iteration order (`arr10` sorts before
`arr2`), not by ascending numeric suffix, so the claimed numeric-suffix
ordering fails for `n = 11`. -/
theorem c2_load_uses_lex_order_not_numeric_suffix :
    _savetree c2Tuple "pytree" = .ok ("pytree", .group [("type", "tuple")] c2Saved) ∧
    roundtrip c2Tuple = .ok c2Loaded ∧
    treeEq c2Loaded c2Tuple = false :=
  ⟨rfl, rfl, rfl⟩

/-- Claim C3: `save` raises the unsupported-type `ValueError` exactly
when the input tree contains, at any position, a node that is neither a
numpy array leaf nor one of the four recognized container shapes, and
raises no such error otherwise. -/
theorem c3_save_fails_iff_unsupported (t : Pytree) :
    exceptIsOk (save t) = !containsUnsupported t := by
  have h := savetree_ok_eq t "pytree"
  cases hs : _savetree t "pytree" <;> simp_all [save, exceptIsOk]

/-- Claim C4 counterexample: saving a bare array leaf produces a root
node named `pytree` that is a dataset node, not a group node. -/
theorem c4_bare_array_root_is_dataset :
    save (.arr c4Arr) = .ok [("pytree", .dataset [] c4Arr)] ∧
    isGroupNode (.dataset [] c4Arr) = false :=
  ⟨rfl, rfl⟩

/-- Claim C4 (amended): for every pytree accepted by `save`, the produced
file has a single root node named `pytree`; it is a group node when the
tree is a container and a dataset node when the tree is a bare array
leaf. -/
theorem c4_root_single_node_named_pytree (t : Pytree) (f : H5File)
    (h : save t = .ok f) :
    ∃ node, f = [("pytree", node)] ∧ isGroupNode node = !isArrLeaf t := by
  cases t with
  | arr a =>
    simp [save, _savetree] at h
    subst h
    exact ⟨.dataset [] a, rfl, rfl⟩
  | namedtuple n fs =>
    cases hs : saveFields fs with
    | error e => simp [save, _savetree, hs] at h
    | ok cs =>
      simp [save, _savetree, hs] at h
      subst h
      exact ⟨.group [("type", n)] cs, rfl, rfl⟩
  | tupleNode es =>
    cases hs : saveSeq es 0 with
    | error e => simp [save, _savetree, hs] at h
    | ok cs =>
      simp [save, _savetree, hs] at h
      subst h
      exact ⟨.group [("type", "tuple")] cs, rfl, rfl⟩
  | listNode es =>
    cases hs : saveSeq es 0 with
    | error e => simp [save, _savetree, hs] at h
    | ok cs =>
      simp [save, _savetree, hs] at h
      subst h
      exact ⟨.group [("type", "list")] cs, rfl, rfl⟩
  | dictNode c entries =>
    cases hs : saveFields entries with
    | error e => simp [save, _savetree, hs] at h
    | ok cs =>
      simp [save, _savetree, hs] at h
      subst h
      exact ⟨.group [("type", c)] cs, rfl, rfl⟩
  | other n =>
    simp [save, _savetree] at h

/-- Amended C4 theorem instantiated at the empty list. -/
theorem c4_root_single_node_named_pytree_witness :
    ∃ node, ([("pytree", H5Node.group [("type", "list")] [])] : H5File)
        = [("pytree", node)] ∧ isGroupNode node = !isArrLeaf (.listNode []) :=
  c4_root_single_node_named_pytree (.listNode [])
    [("pytree", .group [("type", "list")] [])] rfl

/-- Claim C5: in every file produced by a successful `save`, dataset
nodes carry no attributes at all (in particular never a `type`
attribute) and every group node carries exactly one attribute, named
`type`; and `_loadtree` returns the same result on a dataset whatever
its attributes, distinguishing leaf from container by node kind alone. -/
theorem c5_type_attr_discipline :
    (∀ (t : Pytree) (f : H5File),
      save t = .ok f → typeAttrInvChildren f = true) ∧
    (∀ (attrs1 attrs2 : List (String × String)) (a : NpArray),
      _loadtree (.dataset attrs1 a) = _loadtree (.dataset attrs2 a)) := by
  constructor
  · intro t f h
    cases hs : _savetree t "pytree" with
    | error e => simp [save, hs] at h
    | ok c =>
      simp [save, hs] at h
      subst h
      obtain ⟨ck, cn⟩ := c
      simp [typeAttrInvChildren, savetree_inv t "pytree" ck cn hs]
  · intro attrs1 attrs2 a
    rfl

/-- C5 theorem instantiated at the empty dict and at a dataset with and
without a stray attribute. -/
theorem c5_type_attr_discipline_witness :
    typeAttrInvChildren [("pytree", H5Node.group [("type", "dict")] [])] = true ∧
    _loadtree (.dataset [] ⟨"int64", [], [7]⟩)
      = _loadtree (.dataset [("type", "x")] ⟨"int64", [], [7]⟩) :=
  ⟨c5_type_attr_discipline.1 (.dictNode "dict" [])
      [("pytree", .group [("type", "dict")] [])] rfl,
   c5_type_attr_discipline.2 [] [("type", "x")] ⟨"int64", [], [7]⟩⟩

/-- Claim C6: saving the namedtuple `Point(x=1.0, y=2.0)` and loading
yields a labeled tuple whose type name is `Point`, with fields named
exactly `x` and `y` in that order holding the original values. -/
theorem c6_point_roundtrip : roundtrip c6Point = .ok c6Point := rfl

/-- Claim C7: `load` returns a pytree only when the file has a root node
named `pytree` and every group node reached during reconstruction
carries a `type` attribute; a missing root or a missing attribute makes
the corresponding lookup fail, so `load` propagates an error. -/
theorem c7_load_ok_requires_root_and_typed_groups
    (file : H5File) (t : Pytree) (h : loadFile file = .ok t) :
    ∃ n, List.lookup "pytree" file = some n ∧ allGroupsHaveType n = true := by
  cases hl : List.lookup "pytree" file with
  | none => simp [loadFile, hl] at h
  | some n =>
    refine ⟨n, rfl, ?_⟩
    have h2 : _loadtree (sortTree n) = .ok t := by simpa [loadFile, hl] using h
    have h3 := loadtree_groups_typed (sortTree n) t h2
    simpa [sortTree_groups] using h3

/-- C7 theorem instantiated at a file holding an empty tuple. -/
theorem c7_load_ok_requires_root_and_typed_groups_witness :
    ∃ n, List.lookup "pytree"
        ([("pytree", H5Node.group [("type", "tuple")] [])] : H5File) = some n ∧
      allGroupsHaveType n = true :=
  c7_load_ok_requires_root_and_typed_groups
    [("pytree", .group [("type", "tuple")] [])] (.tupleNode []) rfl

/-- Claim C8: `load` leaves the file system unchanged whether it
succeeds or raises, and loading the same unmodified path again returns
the same result. -/
theorem c8_load_leaves_fs_unchanged (fs : FS) (p : String) :
    (loadPath fs p).2 = fs ∧
    (loadPath (loadPath fs p).2 p).1 = (loadPath fs p).1 :=
  ⟨rfl, rfl⟩

/-- Claim C9: the empty list, empty tuple, empty dict and a zero-field
namedtuple each save as a group node carrying only the `type` tag and no
children, and each loads back as the same empty container. -/
theorem c9_empty_containers_roundtrip :
    save (.listNode []) = .ok [("pytree", .group [("type", "list")] [])] ∧
    save (.tupleNode []) = .ok [("pytree", .group [("type", "tuple")] [])] ∧
    save (.dictNode "dict" []) = .ok [("pytree", .group [("type", "dict")] [])] ∧
    save (.namedtuple "Empty" []) = .ok [("pytree", .group [("type", "Empty")] [])] ∧
    roundtrip (.listNode []) = .ok (.listNode []) ∧
    roundtrip (.tupleNode []) = .ok (.tupleNode []) ∧
    roundtrip (.dictNode "dict" []) = .ok (.dictNode "dict" []) ∧
    roundtrip (.namedtuple "Empty" []) = .ok (.namedtuple "Empty" []) :=
  ⟨rfl, rfl, rfl, rfl, rfl, rfl, rfl, rfl⟩

/-- Claim C10 counterexample: an `OrderedDict` (a strict dict subclass)
with the key `'my key'` — not a valid identifier — does not round-trip
to a labeled tuple: the `collections.namedtuple` factory called by
`_loadtree` rejects the key, so `load` raises instead of returning. -/
theorem c10_dict_subclass_invalid_key_raises :
    roundtrip (.dictNode "OrderedDict" [("my key", .arr ⟨"int64", [], [3]⟩)])
      = .error "ValueError: invalid namedtuple names for OrderedDict" ∧
    exceptIsOk (roundtrip (.dictNode "OrderedDict"
      [("my key", .arr ⟨"int64", [], [3]⟩)])) = false :=
  ⟨rfl, rfl⟩

/-- Claim C10 (amended): `load` picks the container shape by exact string
comparison of the stored `type` tag with `dict`, `list` and `tuple`, and
`save` stores the runtime class name.  So a dict whose class name is any
other string (e.g. a strict subclass such as `OrderedDict`) round-trips
to a labeled tuple — provided the class name and keys pass the
`collections.namedtuple` factory's validation (valid non-keyword
identifiers, keys not starting with an underscore), without which `load`
raises — and a labeled tuple whose type name is exactly `dict`, `list`
or `tuple` round-trips to that container shape, with no validation of
its field names. -/
theorem c10_tag_only_dispatch_on_valid_names (c k : String) (a : NpArray)
    (h1 : c ≠ "dict") (h2 : c ≠ "list") (h3 : c ≠ "tuple")
    (h4 : namedtupleNameOk c = true) (h5 : namedtupleNameOk k = true)
    (h6 : startsWithUnderscore k = false) :
    roundtrip (.dictNode c [(k, .arr a)]) = .ok (.namedtuple c [(k, .arr a)]) ∧
    roundtrip (.namedtuple "dict" [(k, .arr a)]) = .ok (.dictNode "dict" [(k, .arr a)]) ∧
    roundtrip (.namedtuple "list" [(k, .arr a)]) = .ok (.listNode [.arr a]) ∧
    roundtrip (.namedtuple "tuple" [(k, .arr a)]) = .ok (.tupleNode [.arr a]) := by
  refine ⟨?_, rfl, rfl, rfl⟩
  simp [roundtrip, save, _savetree, saveFields, loadFile, sortTree, sortChildren,
        h5Iter, insertChild, _loadtree, loadValues, List.lookup,
        namedtupleCtorOk, hasDuplicate, h1, h2, h3, h4, h5, h6]

/-- Amended C10 theorem instantiated at an `OrderedDict` with the single
valid key `'w'`. -/
theorem c10_tag_only_dispatch_on_valid_names_witness :
    roundtrip (.dictNode "OrderedDict" [("w", .arr ⟨"float64", [2], [5, 6]⟩)])
      = .ok (.namedtuple "OrderedDict" [("w", .arr ⟨"float64", [2], [5, 6]⟩)]) ∧
    roundtrip (.namedtuple "dict" [("w", .arr ⟨"float64", [2], [5, 6]⟩)])
      = .ok (.dictNode "dict" [("w", .arr ⟨"float64", [2], [5, 6]⟩)]) ∧
    roundtrip (.namedtuple "list" [("w", .arr ⟨"float64", [2], [5, 6]⟩)])
      = .ok (.listNode [.arr ⟨"float64", [2], [5, 6]⟩]) ∧
    roundtrip (.namedtuple "tuple" [("w", .arr ⟨"float64", [2], [5, 6]⟩)])
      = .ok (.tupleNode [.arr ⟨"float64", [2], [5, 6]⟩]) :=
  c10_tag_only_dispatch_on_valid_names "OrderedDict" "w" ⟨"float64", [2], [5, 6]⟩
    (by decide) (by decide) (by decide) (by decide) (by decide) (by decide)
